import Mathlib

/-!
Shallow embedding of `lib/ansible/modules/crypto/luks_device.py` (the LUKS
state reconciler) and proofs of the spec's claims about it.

External commands are modelled by an `Env` oracle: each distinct command the
module can invoke is a field returning the command result (exit code, stdout,
stderr) for the given arguments.  Within one run the environment is fixed,
matching the module's single-threaded, re-probe-every-run design.  Python
exceptions and `module.fail_json` are modelled by an error type `PyErr`;
every external action that gets invoked is recorded in an action trace, so
"no action was executed" is the trace being `[]`.
-/

namespace LuksDevice

/-- Result of `module.run_command`: the tuple indexed by the module-level
constants RETURN_CODE = 0, STDOUT = 1, STDERR = 2. -/
structure CmdResult where
  rc : Nat
  stdout : String
  stderr : String
deriving DecidableEq

/-- Terminal outcomes of a run that are not a normal return.
`failJson` models `module.fail_json` (structured fault, exits the module);
`valueError` models an uncaught Python `ValueError` escaping `run_module`;
`attrError` models an uncaught `AttributeError` (e.g. `None.group(1)`);
`typeError` models the `TypeError` raised inside `run_command` when `None`
is passed where a string argument is required. -/
inductive PyErr where
  | valueError (msg : String)
  | failJson (msg : String)
  | attrError
  | typeError
deriving DecidableEq

/-- External actions (state-changing command invocations) of the module.
An action enters the trace at the moment the corresponding external command
is invoked, whether or not it then succeeds.  `closeA none` records
`run_luks_close` being entered with Python `None` as the name. -/
inductive Action where
  | format (device keyfile : String)
  | openA (device keyfile name : String)
  | closeA (name : Option String)
  | addKey (device keyfile newKeyfile : String)
  | removeKey (device keyfile : String)
  | wipe (device : String)
deriving DecidableEq

/-- Computation result: a value or an error, together with the trace of
external actions invoked along the way (kept also on the error path, since
already-performed actions remain in effect per the error-handling design). -/
inductive Res (α : Type) where
  | ok (a : α) (tr : List Action)
  | err (e : PyErr) (tr : List Action)
deriving DecidableEq

/-- Prepend an already-accumulated trace to a result. -/
def Res.withTrace {α : Type} (tr : List Action) : Res α → Res α
  | .ok a tr2 => .ok a (tr ++ tr2)
  | .err e tr2 => .err e (tr ++ tr2)

/-- Sequencing: errors cut the run short, traces accumulate in order. -/
def Res.bind {α β : Type} : Res α → (α → Res β) → Res β
  | .ok a tr, f => (f a).withTrace tr
  | .err e tr, _ => .err e tr

@[simp] theorem Res.withTrace_ok {α : Type} (tr tr2 : List Action) (a : α) :
    Res.withTrace tr (.ok a tr2) = .ok a (tr ++ tr2) := rfl

@[simp] theorem Res.withTrace_err {α : Type} (tr tr2 : List Action) (e : PyErr) :
    Res.withTrace tr (.err e tr2) = (.err e (tr ++ tr2) : Res α) := rfl

@[simp] theorem Res.bind_ok {α β : Type} (a : α) (tr : List Action) (f : α → Res β) :
    Res.bind (.ok a tr) f = (f a).withTrace tr := rfl

@[simp] theorem Res.bind_err {α β : Type} (e : PyErr) (tr : List Action) (f : α → Res β) :
    Res.bind (.err e tr) f = .err e tr := rfl

/-- Oracle for the external commands the module can run.  Each field gives
the `CmdResult` of one command shape for its arguments. -/
structure Env where
  /-- command `[lsblk, -n, device, -o, UUID]` -/
  lsblkUuid : String → CmdResult
  /-- command `[lsblk, device, -nlo, type,name]` -/
  lsblkTypeName : String → CmdResult
  /-- command `[cryptsetup, status, name]` -/
  cryptsetupStatus : String → CmdResult
  /-- command `[cryptsetup, isLuks, device]` -/
  cryptsetupIsLuks : String → CmdResult
  /-- command `[cryptsetup, luksFormat, -q, device, keyfile]` -/
  cryptsetupLuksFormat : String → String → CmdResult
  /-- command `[cryptsetup, --key-file, keyfile, open, --type, luks, device, name]` -/
  cryptsetupOpen : String → String → String → CmdResult
  /-- command `[cryptsetup, close, name]` -/
  cryptsetupClose : String → CmdResult
  /-- command `[cryptsetup, luksAddKey, device, new_keyfile, --key-file, keyfile]` -/
  cryptsetupAddKey : String → String → String → CmdResult
  /-- command `[cryptsetup, luksRemoveKey, device, -q, --key-file, keyfile]` -/
  cryptsetupRemoveKey : String → String → CmdResult
  /-- command `[wipefs, --all, device]` -/
  wipefsAll : String → CmdResult

/-! Model of the two module-level regexes applied with `re.search`:
`LUKS_NAME_REGEX = r'\s*crypt\s+([^\s]*)\s*'` and
`LUKS_DEVICE_REGEX = r'\s*device:\s+([^\s]*)\s*'`.
For either pattern a match exists iff the literal token occurs somewhere in
the text immediately followed by at least one whitespace character (the
leading and trailing `\s*` can match the empty string); `re.search` picks the
leftmost such occurrence, and the greedy `\s+([^\s]*)` captures the maximal
non-whitespace run after the maximal whitespace run following the token. -/

/-- Python regex class `\s` (restricted to the ASCII whitespace the tool
output contains). -/
def isWs (c : Char) : Bool := c.isWhitespace

/-- Does the text start with a whitespace character (`\s+` can start here)? -/
def wsHead : List Char → Bool
  | c :: _ => isWs c
  | [] => false

/-- Capture group `([^\s]*)` after the greedy `\s+`: skip the whitespace run,
take the following non-whitespace run. -/
def captureAfter (l : List Char) : List Char :=
  (l.dropWhile isWs).takeWhile (fun c => !isWs c)

/-- The literal token `tok` occurs at offset `j` of `l`, immediately followed
by at least one whitespace character. -/
def tokHitAt (tok l : List Char) (j : Nat) : Bool :=
  decide ((l.drop j).take tok.length = tok) && wsHead (l.drop (j + tok.length))

/-- Leftmost-occurrence scan of `re.search` for the pattern
`\s*<tok>\s+([^\s]*)\s*`: returns the captured group of the leftmost match,
or `none` when the pattern matches nowhere. -/
def searchTokWs (tok : List Char) : List Char → Option (List Char)
  | [] => none
  | c :: rest =>
    if tokHitAt tok (c :: rest) 0 then some (captureAfter ((c :: rest).drop tok.length))
    else searchTokWs tok rest

/-- Literal of `LUKS_NAME_REGEX`. -/
def cryptTok : List Char := ['c', 'r', 'y', 'p', 't']

/-- Literal of `LUKS_DEVICE_REGEX`. -/
def deviceTok : List Char := ['d', 'e', 'v', 'i', 'c', 'e', ':']

/-- `LUKS_NAME_REGEX.search(text)` followed by `m.group(1)`, with the
`AttributeError` on a failed match already folded to `none` (as
`get_container_name_by_device` does with its try/except). -/
def luksNameSearch (s : String) : Option String :=
  (searchTokWs cryptTok s.data).map String.mk

/-- `LUKS_DEVICE_REGEX.search(text)`: captured group of the match if any. -/
def luksDeviceSearch (s : String) : Option String :=
  (searchTokWs deviceTok s.data).map String.mk

/-- Split a character list at every occurrence of a separator. -/
def splitOnChar (sep : Char) : List Char → List (List Char)
  | [] => [[]]
  | c :: rest =>
    match splitOnChar sep rest with
    | [] => if c = sep then [[], []] else [[c]]
    | cur :: rs => if c = sep then [] :: cur :: rs else (c :: cur) :: rs

/-- Modelled from the spec: one line of the **name-from-mapping-listing**
rule of §4.2 — the line's first whitespace-delimited token must be exactly
the literal `crypt`; the name token is the following non-whitespace run. -/
def lineTypeName (l : List Char) : Option (List Char) :=
  let rest := l.dropWhile isWs
  if rest.takeWhile (fun c => !isWs c) = cryptTok then
    let rest2 := (rest.dropWhile (fun c => !isWs c)).dropWhile isWs
    let nameTok := rest2.takeWhile (fun c => !isWs c)
    if nameTok = [] then none else some nameTok
  else none

/-- Modelled from the spec: the **name-from-mapping-listing** extraction rule
as §4.2 words it — find a line whose type token is exactly the literal
`crypt` and return that line's name token; not-found is `none`.  Stated only
for comparison against `luksNameSearch`, the embedding of the source
regex. -/
def specNameFromListing (s : String) : Option String :=
  ((splitOnChar '\x0a' s.data).findSome? lineTypeName).map String.mk

/-- Python `str.strip()`: drop leading and trailing whitespace. -/
def pyStrip (s : String) : String :=
  String.mk (((s.data.dropWhile isWs).reverse.dropWhile isWs).reverse)

/-! Embeddings of the handler methods. -/

/-- `Handler.generate_luks_name`: name from the device UUID
(`luks-<UUID>`); `ValueError` when the lsblk UUID probe fails. -/
def generate_luks_name (env : Env) (device : String) : Res String :=
  let result := env.lsblkUuid device
  if result.rc ≠ 0 then
    .err (.valueError ("Error while generating LUKS name for " ++ device ++ ": "
      ++ result.stderr)) []
  else .ok ("luks-" ++ pyStrip result.stdout) []

/-- `CryptHandler.get_container_name_by_device`: lsblk listing scoped to the
device, parsed with `LUKS_NAME_REGEX`; `none` when no match (container not
open); `ValueError` when lsblk exits non-zero. -/
def get_container_name_by_device (env : Env) (device : String) : Res (Option String) :=
  let result := env.lsblkTypeName device
  if result.rc ≠ 0 then
    .err (.valueError ("Error while obtaining LUKS name for " ++ device ++ ": "
      ++ result.stderr)) []
  else .ok (luksNameSearch result.stdout) []

/-- `CryptHandler.get_container_device_by_name`: `cryptsetup status` for the
name; non-zero exit is `none` (not an error — absence expected); on success
the `device:` line is extracted with `m.group(1)` directly, so a zero-exit
output without such a line raises `AttributeError` (`m` is `None`). -/
def get_container_device_by_name (env : Env) (name : String) : Res (Option String) :=
  let result := env.cryptsetupStatus name
  if result.rc ≠ 0 then .ok none []
  else
    match luksDeviceSearch result.stdout with
    | some device => .ok (some device) []
    | none => .err .attrError []

/-- `CryptHandler.is_luks`: zero exit of `cryptsetup isLuks`. -/
def is_luks (env : Env) (device : String) : Bool :=
  (env.cryptsetupIsLuks device).rc == 0

/-- `CryptHandler.run_luks_create`: `cryptsetup luksFormat -q`. -/
def run_luks_create (env : Env) (device keyfile : String) : Res Unit :=
  let result := env.cryptsetupLuksFormat device keyfile
  if result.rc ≠ 0 then
    .err (.valueError ("Error while creating LUKS on " ++ device ++ ": "
      ++ result.stderr)) [.format device keyfile]
  else .ok () [.format device keyfile]

/-- `CryptHandler.run_luks_open`: `cryptsetup open`. -/
def run_luks_open (env : Env) (device keyfile name : String) : Res Unit :=
  let result := env.cryptsetupOpen device keyfile name
  if result.rc ≠ 0 then
    .err (.valueError ("Error while opening LUKS container on " ++ device ++ ": "
      ++ result.stderr)) [.openA device keyfile name]
  else .ok () [.openA device keyfile name]

/-- `CryptHandler.run_luks_close`: `cryptsetup close name`.  The argument is
an `Option` because `run_module` can reach this call with the re-resolved
name being Python `None`; in that case `run_command` raises `TypeError`
before any external program runs. -/
def run_luks_close (env : Env) (name : Option String) : Res Unit :=
  match name with
  | none => .err .typeError [.closeA none]
  | some n =>
    let result := env.cryptsetupClose n
    if result.rc ≠ 0 then
      .err (.valueError ("Error while closing LUKS container " ++ n)) [.closeA (some n)]
    else .ok () [.closeA (some n)]

/-- `CryptHandler.run_luks_remove`: resolve the open name by device, close it
if open, then `wipefs --all`. -/
def run_luks_remove (env : Env) (device : String) : Res Unit :=
  Res.bind (get_container_name_by_device env device) fun name =>
    Res.bind (match name with
      | some n => run_luks_close env (some n)
      | none => .ok () []) fun _ =>
      let result := env.wipefsAll device
      if result.rc ≠ 0 then
        .err (.valueError ("Error while wiping luks container " ++ device ++ ": "
          ++ result.stderr)) [.wipe device]
      else .ok () [.wipe device]

/-- `CryptHandler.run_luks_add_key`: `cryptsetup luksAddKey`. -/
def run_luks_add_key (env : Env) (device keyfile new_keyfile : String) : Res Unit :=
  let result := env.cryptsetupAddKey device keyfile new_keyfile
  if result.rc ≠ 0 then
    .err (.valueError ("Error while adding new LUKS key to " ++ device ++ ": "
      ++ result.stderr)) [.addKey device keyfile new_keyfile]
  else .ok () [.addKey device keyfile new_keyfile]

/-- `CryptHandler.run_luks_remove_key`: `cryptsetup luksRemoveKey -q`. -/
def run_luks_remove_key (env : Env) (device keyfile : String) : Res Unit :=
  let result := env.cryptsetupRemoveKey device keyfile
  if result.rc ≠ 0 then
    .err (.valueError ("Error while removing LUKS key from " ++ device ++ ": "
      ++ result.stderr)) [.removeKey device keyfile]
  else .ok () [.removeKey device keyfile]

/-- The `state` module parameter. -/
inductive St where
  | present
  | absent
  | opened
  | closed
deriving DecidableEq

/-- The module's parameter set (`module.params`); every parameter except
`state` is optional and defaults to Python `None`. -/
structure Params where
  state : St
  device : Option String
  name : Option String
  keyfile : Option String
  new_keyfile : Option String
  remove_keyfile : Option String
deriving DecidableEq

/-- `ConditionsHandler.luks_create`: device and keyfile supplied, state in
{present, opened, closed}, and the device is not yet a LUKS container.
Python's short-circuit `and` only reaches `is_luks` when the device is
supplied; value-wise this total form agrees. -/
def luks_create (env : Env) (p : Params) : Bool :=
  p.device.isSome && p.keyfile.isSome &&
  (p.state == .present || p.state == .opened || p.state == .closed) &&
  !(match p.device with
    | some d => is_luks env d
    | none => false)

/-- `ConditionsHandler.opened_luks_name`: when state is `opened`, probe the
name the device is currently open under.  A caller-supplied name that
differs from the probed one is a fatal `fail_json`.  When state is `opened`
and no device was supplied, Python hands `None` to `run_command` inside the
probe, a `TypeError`. -/
def opened_luks_name (env : Env) (p : Params) : Res (Option String) :=
  if p.state ≠ .opened then .ok none []
  else
    Res.bind (match p.device with
      | none => .err .typeError []
      | some d => get_container_name_by_device env d) fun name? =>
      match name? with
      | none => .ok none []
      | some nm =>
        match p.name with
        | none => .ok (some nm) []
        | some pn =>
          if nm ≠ pn then
            .err (.failJson ("LUKS container is already opened under different name '"
              ++ nm ++ "'.")) []
          else .ok (some nm) []

/-- `ConditionsHandler.luks_open`: device and keyfile supplied, state
`opened`, and `opened_luks_name` resolved to `None`. -/
def luks_open (env : Env) (p : Params) : Res Bool :=
  if p.device.isNone ∨ p.keyfile.isNone ∨ p.state ≠ .opened then .ok false []
  else
    Res.bind (opened_luks_name env p) fun name? => .ok name?.isNone []

/-- `ConditionsHandler.luks_close`: guard (name or device supplied, state
`closed`), then probe liveness.  Both probes run when both identifiers are
supplied and the second assignment — the one from the name-based probe —
overwrites the first, so the name-based probe decides.  The final fall-back
arm is unreachable under the guard (it would be Python's
`UnboundLocalError`). -/
def luks_close (env : Env) (p : Params) : Res Bool :=
  if (p.name.isNone ∧ p.device.isNone) ∨ p.state ≠ .closed then .ok false []
  else
    Res.bind (match p.device with
      | some d => Res.bind (get_container_name_by_device env d) fun nm? =>
          .ok (some nm?.isSome) []
      | none => .ok none []) fun fromDevice =>
    Res.bind (match p.name with
      | some nm => Res.bind (get_container_device_by_name env nm) fun dv? =>
          .ok (some dv?.isSome) []
      | none => .ok none []) fun fromName =>
    match fromName, fromDevice with
    | some b, _ => .ok b []
    | none, some b => .ok b []
    | none, none => .err .typeError []

/-- `ConditionsHandler.luks_add_key`: device, keyfile and new_keyfile all
supplied; contradiction `fail_json` when state is `absent`. -/
def luks_add_key (p : Params) : Res Bool :=
  if p.device.isNone ∨ p.keyfile.isNone ∨ p.new_keyfile.isNone then .ok false []
  else if p.state = .absent then
    .err (.failJson "Contradiction in setup: Asking to add a key to absent LUKS.") []
  else .ok true []

/-- `ConditionsHandler.luks_remove_key`: device and remove_keyfile supplied;
contradiction `fail_json` when state is `absent`. -/
def luks_remove_key (p : Params) : Res Bool :=
  if p.device.isNone ∨ p.remove_keyfile.isNone then .ok false []
  else if p.state = .absent then
    .err (.failJson "Contradiction in setup: Asking to remove a key from absent LUKS.") []
  else .ok true []

/-- `ConditionsHandler.luks_remove`: device supplied, state `absent`, device
is a LUKS container. -/
def luks_remove (env : Env) (p : Params) : Bool :=
  p.device.isSome && p.state == .absent &&
  (match p.device with
   | some d => is_luks env d
   | none => false)

/-- A `try`/`except ValueError as e: module.fail_json(...)` block around a
computation: only `ValueError` is converted (other exceptions escape). -/
def tryVE {α : Type} : Res α → Res α
  | .err (.valueError m) tr => .err (.failJson ("luks_device error: " ++ m)) tr
  | r => r

/-- The module's reported result: `{changed, name}`. -/
structure RunResult where
  changed : Bool
  name : Option String
deriving DecidableEq

/-- `run_module`: the fixed-order reconciliation sequence, translated
block-for-block.  The calls to `opened_luks_name` (line 444), `luks_open`
(line 448) and `luks_close` (line 465) are not inside a
`try`/`except ValueError` block in the source, so a `ValueError` raised by
their probes escapes uncaught; every other `ValueError` site is wrapped with
`tryVE`. -/
def run_module (env : Env) (p : Params) : Res RunResult :=
  -- luks create
  Res.bind (if luks_create env p then
      Res.bind (tryVE (run_luks_create env (p.device.getD "") (p.keyfile.getD "")))
        fun _ => .ok true []
    else .ok false []) fun changed1 =>
  -- luks open: name = conditions.opened_luks_name(); result name when found
  Res.bind (opened_luks_name env p) fun name0 =>
  Res.bind (luks_open env p) fun lo =>
  Res.bind (if lo then
      Res.bind (match p.name with
        | some nm => .ok nm []
        | none => tryVE (generate_luks_name env (p.device.getD ""))) fun nm =>
      Res.bind (tryVE (run_luks_open env (p.device.getD "") (p.keyfile.getD "") nm))
        fun _ => .ok (some nm, true) []
    else .ok ((none : Option String), false) []) fun openOut =>
  let resName : Option String := if openOut.1.isSome then openOut.1 else name0
  let changed2 : Bool := changed1 || openOut.2
  -- luks close: with a device the name is re-resolved from the device
  Res.bind (luks_close env p) fun lc =>
  Res.bind (if lc then
      Res.bind (if p.device.isSome then
          tryVE (get_container_name_by_device env (p.device.getD ""))
        else .ok p.name []) fun nm? =>
      Res.bind (tryVE (run_luks_close env nm?)) fun _ => .ok true []
    else .ok false []) fun c3 =>
  let changed3 : Bool := changed2 || c3
  -- luks add key
  Res.bind (luks_add_key p) fun lak =>
  Res.bind (if lak then
      Res.bind (tryVE (run_luks_add_key env (p.device.getD "") (p.keyfile.getD "")
        (p.new_keyfile.getD ""))) fun _ => .ok true []
    else .ok false []) fun c4 =>
  let changed4 : Bool := changed3 || c4
  -- luks remove key
  Res.bind (luks_remove_key p) fun lrk =>
  Res.bind (if lrk then
      Res.bind (tryVE (run_luks_remove_key env (p.device.getD "")
        (p.remove_keyfile.getD ""))) fun _ => .ok true []
    else .ok false []) fun c5 =>
  let changed5 : Bool := changed4 || c5
  -- luks remove
  Res.bind (if luks_remove env p then
      Res.bind (tryVE (run_luks_remove env (p.device.getD ""))) fun _ => .ok true []
    else .ok false []) fun c6 =>
  .ok ⟨changed5 || c6, resName⟩ []

/-! Concrete environments used by the witness and counterexample theorems. -/

/-- A command that exits 0 with empty output. -/
def okCmd : CmdResult := ⟨0, "", ""⟩

/-- A command that exits 1 with error text `boom`. -/
def failCmd : CmdResult := ⟨1, "", "boom"⟩

/-- Environment in which every external command fails; concrete environments
below override the fields a scenario needs. -/
def env0 : Env :=
  ⟨fun _ => failCmd, fun _ => failCmd, fun _ => failCmd, fun _ => failCmd,
   fun _ _ => failCmd, fun _ _ _ => failCmd, fun _ => failCmd, fun _ _ _ => failCmd,
   fun _ _ => failCmd, fun _ => failCmd⟩

/-- C1 run 1: device not yet formatted, `luksFormat` succeeds. -/
def envC1a : Env := { env0 with cryptsetupIsLuks := fun _ => failCmd,
                                cryptsetupLuksFormat := fun _ _ => okCmd }

/-- C1 run 2: device formatted. -/
def envC1b : Env := { env0 with cryptsetupIsLuks := fun _ => okCmd }

/-- C2 run 1: formatted, unopened (lsblk listing has no `crypt` line), UUID
probe yields `UU-1`, `cryptsetup open` succeeds. -/
def envC2a : Env := { env0 with cryptsetupIsLuks := fun _ => okCmd,
                                lsblkTypeName := fun _ => ⟨0, "part sda1\n", ""⟩,
                                lsblkUuid := fun _ => ⟨0, "UU-1\n", ""⟩,
                                cryptsetupOpen := fun _ _ _ => okCmd }

/-- C2 run 2: formatted and open under the generated name `luks-UU-1`. -/
def envC2b : Env := { env0 with cryptsetupIsLuks := fun _ => okCmd,
                                lsblkTypeName := fun _ => ⟨0, "crypt luks-UU-1\n", ""⟩ }

/-- C3: formatted and already open under the name `bar`. -/
def envC3 : Env := { env0 with cryptsetupIsLuks := fun _ => okCmd,
                               lsblkTypeName := fun _ => ⟨0, "crypt bar\n", ""⟩ }

/-- C4 run 1: formatted and open under `cr1`; close and wipefs succeed. -/
def envC4a : Env := { env0 with cryptsetupIsLuks := fun _ => okCmd,
                                lsblkTypeName := fun _ => ⟨0, "crypt cr1\n", ""⟩,
                                cryptsetupClose := fun _ => okCmd,
                                wipefsAll := fun _ => okCmd }

/-- C4 run 2: signature wiped, device no longer formatted. -/
def envC4b : Env := { env0 with cryptsetupIsLuks := fun _ => failCmd }

/-- C5: the device-based probe finds a live mapping (`crypt bar`) while the
name-based probe (`cryptsetup status`) exits non-zero (mapping not open). -/
def envC5 : Env := { env0 with lsblkTypeName := fun _ => ⟨0, "crypt bar\n", ""⟩,
                               cryptsetupStatus := fun _ => ⟨4, "", ""⟩ }

/-- C6: formatted device, no open mapping, wipefs succeeds. -/
def envC6 : Env := { env0 with cryptsetupIsLuks := fun _ => okCmd,
                               lsblkTypeName := fun _ => ⟨0, "part sda1\n", ""⟩,
                               wipefsAll := fun _ => okCmd }

/-- C7: the lsblk mapping-listing probe fails (non-zero exit). -/
def envC7 : Env := { env0 with cryptsetupIsLuks := fun _ => okCmd,
                               lsblkTypeName := fun _ => ⟨1, "", "boom"⟩ }

/-- C9: formatted device with no open mapping on it, while `cryptsetup
status` for the caller's name reports a mapping backed by another device. -/
def envC9 : Env := { env0 with cryptsetupIsLuks := fun _ => okCmd,
                               lsblkTypeName := fun _ => ⟨0, "part sda1\n", ""⟩,
                               cryptsetupStatus := fun _ => ⟨0, "  device:  /dev/other\n", ""⟩ }

/-- C10: `cryptsetup status` exits 0; for `foo` its output has no `device:`
line, for `baz` it has one, for anything else it exits non-zero. -/
def envC10 : Env := { env0 with cryptsetupStatus := fun nm =>
                        if nm = "foo" then ⟨0, "/dev/mapper/foo is active.\n  type:    n/a\n", ""⟩
                        else if nm = "baz" then ⟨0, "  device:  /dev/sda\n", ""⟩
                        else failCmd }

/-! Claim theorems. -/

/-- C1: for every device `d` that is not yet formatted, a run with
`state=present`, the device and a keyfile executes the format action and
reports `changed = true`; a second identical run, with `d` now formatted,
executes no action and reports `changed = false`. -/
theorem c1_present_format_idempotent (env env2 : Env) (d k : String)
    (h1 : is_luks env d = false)
    (h2 : (env.cryptsetupLuksFormat d k).rc = 0)
    (h3 : is_luks env2 d = true) :
    run_module env ⟨.present, some d, none, some k, none, none⟩ =
      .ok ⟨true, none⟩ [.format d k] ∧
    run_module env2 ⟨.present, some d, none, some k, none, none⟩ =
      .ok ⟨false, none⟩ [] := by
  constructor <;>
    simp [run_module, luks_create, luks_open, luks_close, luks_add_key,
      luks_remove_key, luks_remove, opened_luks_name, run_luks_create, tryVE,
      h1, h2, h3]

/-- C1 witness: the two runs at a concrete device, keyfile and environment
pair. -/
theorem c1_present_format_idempotent_witness :
    is_luks envC1a "/dev/sda" = false ∧
    (run_module envC1a ⟨.present, some "/dev/sda", none, some "/vault/kf", none, none⟩ =
        .ok ⟨true, none⟩ [.format "/dev/sda" "/vault/kf"] ∧
      run_module envC1b ⟨.present, some "/dev/sda", none, some "/vault/kf", none, none⟩ =
        .ok ⟨false, none⟩ []) :=
  ⟨rfl, c1_present_format_idempotent envC1a envC1b "/dev/sda" "/vault/kf" rfl rfl rfl⟩

/-- C2: for every formatted, unopened device `d`, a run with `state=opened`,
a keyfile and no name resolves the container name to `luks-` followed by the
UUID probed from the device, executes the open action under that name and
reports `changed = true`; a second identical run, with `d` now open under
that name, resolves the same name, executes no action and reports
`changed = false`. -/
theorem c2_opened_autoname_idempotent (env env2 : Env) (d k : String)
    (h1 : is_luks env d = true)
    (h2 : get_container_name_by_device env d = .ok none [])
    (h3 : (env.lsblkUuid d).rc = 0)
    (h4 : (env.cryptsetupOpen d k ("luks-" ++ pyStrip (env.lsblkUuid d).stdout)).rc = 0)
    (h5 : is_luks env2 d = true)
    (h6 : get_container_name_by_device env2 d =
      .ok (some ("luks-" ++ pyStrip (env.lsblkUuid d).stdout)) []) :
    run_module env ⟨.opened, some d, none, some k, none, none⟩ =
      .ok ⟨true, some ("luks-" ++ pyStrip (env.lsblkUuid d).stdout)⟩
        [.openA d k ("luks-" ++ pyStrip (env.lsblkUuid d).stdout)] ∧
    run_module env2 ⟨.opened, some d, none, some k, none, none⟩ =
      .ok ⟨false, some ("luks-" ++ pyStrip (env.lsblkUuid d).stdout)⟩ [] := by
  constructor <;>
    simp [run_module, luks_create, luks_open, luks_close, luks_add_key,
      luks_remove_key, luks_remove, opened_luks_name, generate_luks_name,
      run_luks_open, tryVE, h1, h2, h3, h4, h5, h6]

/-- C2 witness: the two runs at a concrete device, keyfile and environment
pair, where the probed UUID is `UU-1`. -/
theorem c2_opened_autoname_idempotent_witness :
    get_container_name_by_device envC2a "/dev/sda" = .ok none [] ∧
    (run_module envC2a ⟨.opened, some "/dev/sda", none, some "/vault/kf", none, none⟩ =
        .ok ⟨true, some "luks-UU-1"⟩ [.openA "/dev/sda" "/vault/kf" "luks-UU-1"] ∧
      run_module envC2b ⟨.opened, some "/dev/sda", none, some "/vault/kf", none, none⟩ =
        .ok ⟨false, some "luks-UU-1"⟩ []) :=
  ⟨rfl, c2_opened_autoname_idempotent envC2a envC2b "/dev/sda" "/vault/kf"
    rfl rfl rfl (by decide) rfl (by decide)⟩

/-- C3: whenever the device is already open under a name `n1` and the caller
supplies `state=opened` with an explicit different name `n2`, the run
terminates with the naming-conflict `fail_json` fault and its action trace
is empty — no format, open, close, add-key, remove-key or destroy action is
executed, whatever the other parameters are. -/
theorem c3_conflict_faults_without_action (env : Env) (d n1 n2 : String)
    (kf nk rk : Option String)
    (hfmt : is_luks env d = true)
    (hopen : get_container_name_by_device env d = .ok (some n1) [])
    (hne : n1 ≠ n2) :
    run_module env ⟨.opened, some d, some n2, kf, nk, rk⟩ =
      .err (.failJson ("LUKS container is already opened under different name '"
        ++ n1 ++ "'.")) [] := by
  simp [run_module, luks_create, opened_luks_name, hfmt, hopen, hne]

/-- C3 witness: concrete run already open under `bar`, asked to open as
`foo`. -/
theorem c3_conflict_faults_without_action_witness :
    get_container_name_by_device envC3 "/dev/sda" = .ok (some "bar") [] ∧
    run_module envC3 ⟨.opened, some "/dev/sda", some "foo", some "/vault/kf", none, none⟩ =
      .err (.failJson "LUKS container is already opened under different name 'bar'.") [] :=
  ⟨rfl, c3_conflict_faults_without_action envC3 "/dev/sda" "bar" "foo"
    (some "/vault/kf") none none rfl rfl (by decide)⟩

/-- C4: for every formatted, currently-open device `d`, a run with
`state=absent` first executes the close action for the open mapping and then
the signature-erase action, in that order, and reports `changed = true`; a
second identical run, with `d` no longer formatted, executes no action and
reports `changed = false`. -/
theorem c4_absent_close_then_wipe_idempotent (env env2 : Env) (d n : String)
    (h1 : is_luks env d = true)
    (h2 : get_container_name_by_device env d = .ok (some n) [])
    (h3 : (env.cryptsetupClose n).rc = 0)
    (h4 : (env.wipefsAll d).rc = 0)
    (h5 : is_luks env2 d = false) :
    run_module env ⟨.absent, some d, none, none, none, none⟩ =
      .ok ⟨true, none⟩ [.closeA (some n), .wipe d] ∧
    run_module env2 ⟨.absent, some d, none, none, none, none⟩ =
      .ok ⟨false, none⟩ [] := by
  constructor <;>
    simp [run_module, luks_create, luks_open, luks_close, luks_add_key,
      luks_remove_key, luks_remove, opened_luks_name, run_luks_remove,
      run_luks_close, tryVE, h1, h2, h3, h4, h5]

/-- C4 witness: the two runs at a concrete device open under `cr1`. -/
theorem c4_absent_close_then_wipe_idempotent_witness :
    is_luks envC4a "/dev/sda" = true ∧
    (run_module envC4a ⟨.absent, some "/dev/sda", none, none, none, none⟩ =
        .ok ⟨true, none⟩ [.closeA (some "cr1"), .wipe "/dev/sda"] ∧
      run_module envC4b ⟨.absent, some "/dev/sda", none, none, none, none⟩ =
        .ok ⟨false, none⟩ []) :=
  ⟨rfl, c4_absent_close_then_wipe_idempotent envC4a envC4b "/dev/sda" "cr1"
    rfl rfl rfl rfl rfl⟩

/-- C5 counterexample: with `state=closed` and both device and name
supplied, the device-based probe finds a live mapping (`crypt bar`), yet
`luks_close` decides `false` because the name-based probe (non-zero
`cryptsetup status` exit) says the mapping is not open — so the device-based
probe does not determine the liveness decision. -/
theorem c5_counterexample_device_probe_ignored :
    get_container_name_by_device envC5 "/dev/sda" = .ok (some "bar") [] ∧
    luks_close envC5 ⟨.closed, some "/dev/sda", some "foo", none, none, none⟩ =
      .ok false [] :=
  ⟨rfl, rfl⟩

/-- C5 amended: with `state=closed` and both device and name supplied, both
probes are attempted but the liveness decision is determined by the
name-based probe (`deviceForName`), whose assignment is computed second and
overwrites the device-based result; the device-based probe only has to
succeed (zero lsblk exit). -/
theorem c5_name_probe_decides_liveness (env : Env) (d nm : String)
    (kf : Option String) (dv : Option String)
    (hdev : (env.lsblkTypeName d).rc = 0)
    (hname : get_container_device_by_name env nm = .ok dv []) :
    luks_close env ⟨.closed, some d, some nm, kf, none, none⟩ =
      .ok dv.isSome [] := by
  simp [luks_close, get_container_name_by_device, hdev, hname]

/-- C5 witness: the amended theorem at the concrete disagreeing
environment. -/
theorem c5_name_probe_decides_liveness_witness :
    (envC5.lsblkTypeName "/dev/sda").rc = 0 ∧
    luks_close envC5 ⟨.closed, some "/dev/sda", some "foo", none, none, none⟩ =
      .ok false [] :=
  ⟨rfl, c5_name_probe_decides_liveness envC5 "/dev/sda" "foo" none none rfl rfl⟩

/-- C6 counterexample: `state=absent` with device and `new_keyfile` supplied
but no `keyfile`: the add-key condition returns `False` before its
contradiction check, no fault is raised, and the destroy action (wipe) runs
on the formatted device. -/
theorem c6_counterexample_destroy_runs_without_keyfile :
    run_module envC6 ⟨.absent, some "/dev/sda", none, none, some "/vault/new", none⟩ =
      .ok ⟨true, none⟩ [.wipe "/dev/sda"] :=
  rfl

/-- C6 amended: for every run where device, `keyfile` and `new_keyfile` are
all supplied and `state=absent`, the run terminates with the contradiction
`fail_json` fault at the add-key condition, before any action is executed —
in particular the destroy action is never reached, for every environment. -/
theorem c6_addkey_absent_contradiction (env : Env) (d k nk : String)
    (nm rk : Option String) :
    run_module env ⟨.absent, some d, nm, some k, some nk, rk⟩ =
      .err (.failJson "Contradiction in setup: Asking to add a key to absent LUKS.") [] := by
  simp [run_module, luks_create, luks_open, luks_close, luks_add_key,
    opened_luks_name]

/-- C7: with `state=opened`, a failing lsblk mapping-listing probe during
condition evaluation terminates the run with an uncaught `ValueError`
(a raw traceback), not the structured `fail_json` fault; the same probe
failure while deciding `shouldClose` for `state=closed` does the same. -/
theorem c7_probe_failure_uncaught_valueerror :
    run_module envC7 ⟨.opened, some "/dev/sda", none, some "/vault/kf", none, none⟩ =
      .err (.valueError "Error while obtaining LUKS name for /dev/sda: boom") [] ∧
    run_module envC7 ⟨.closed, some "/dev/sda", none, none, none, none⟩ =
      .err (.valueError "Error while obtaining LUKS name for /dev/sda: boom") [] :=
  ⟨rfl, rfl⟩

/-- C9: with `state=closed`, both device and name supplied, the name-based
probe reporting the mapping open while the device-based probe finds none:
the close condition is `true`, and the close action is then invoked with the
name re-resolved from the device — which is `None` — so the run crashes with
a `TypeError` instead of closing the caller-supplied name. -/
theorem c9_close_invoked_with_null_name (env : Env) (d nm odev : String)
    (kf nk rk : Option String)
    (hfmt : is_luks env d = true)
    (hdev : get_container_name_by_device env d = .ok none [])
    (hname : get_container_device_by_name env nm = .ok (some odev) []) :
    luks_close env ⟨.closed, some d, some nm, kf, nk, rk⟩ = .ok true [] ∧
    run_module env ⟨.closed, some d, some nm, kf, nk, rk⟩ =
      .err .typeError [.closeA none] := by
  constructor <;>
    simp [run_module, luks_create, luks_open, luks_close, luks_add_key,
      luks_remove_key, luks_remove, opened_luks_name, run_luks_close, tryVE,
      hfmt, hdev, hname]

/-- C9 witness: the concrete disagreeing environment. -/
theorem c9_close_invoked_with_null_name_witness :
    get_container_name_by_device envC9 "/dev/sda" = .ok none [] ∧
    (luks_close envC9 ⟨.closed, some "/dev/sda", some "foo", none, none, none⟩ =
        .ok true [] ∧
      run_module envC9 ⟨.closed, some "/dev/sda", some "foo", none, none, none⟩ =
        .err .typeError [.closeA none]) :=
  ⟨rfl, c9_close_invoked_with_null_name envC9 "/dev/sda" "foo" "/dev/other"
    none none none rfl rfl rfl⟩

/-- C10: when `cryptsetup status` exits zero but its output has no
`device: <path>` line, `get_container_device_by_name` dereferences the
failed match and raises an uncaught `AttributeError`; a non-zero exit is
`none` (not-found, no error) and a well-shaped zero-exit output yields the
path — the probe is total only when zero-exit status output always carries a
`device:` line. -/
theorem c10_status_parse_attrerror :
    get_container_device_by_name envC10 "foo" = .err .attrError [] ∧
    get_container_device_by_name envC10 "bar" = .ok none [] ∧
    get_container_device_by_name envC10 "baz" = .ok (some "/dev/sda") [] :=
  ⟨rfl, rfl, rfl⟩

/-! Helper lemmas for the regex-search characterization. -/

/-- Shifting a token-hit across a cons cell. -/
theorem tokHitAt_cons_succ (tok : List Char) (c : Char) (rest : List Char) (j : Nat) :
    tokHitAt tok (c :: rest) (j + 1) = tokHitAt tok rest j := by
  simp [tokHitAt, List.drop_succ_cons, Nat.add_right_comm j 1 tok.length]

/-- No token-hit at or past the end of the text. -/
theorem tokHitAt_of_le_false (tok l : List Char) (i : Nat) (h : l.length ≤ i) :
    tokHitAt tok l i = false := by
  have h1 : l.drop (i + tok.length) = [] := List.drop_eq_nil_of_le (by omega)
  simp [tokHitAt, h1, wsHead]

/-- The scan finds nothing when no offset has a token-hit. -/
theorem searchTokWs_eq_none (tok l : List Char)
    (h : ∀ i, tokHitAt tok l i = false) : searchTokWs tok l = none := by
  induction l with
  | nil => rfl
  | cons c rest ih =>
    rw [searchTokWs, if_neg]
    · exact ih fun i => by rw [← tokHitAt_cons_succ tok c rest i]; exact h (i + 1)
    · simp [h 0]

/-- The scan returns the capture at the least offset with a token-hit. -/
theorem searchTokWs_eq_some (tok l : List Char) (j : Nat)
    (hhit : tokHitAt tok l j = true)
    (hmin : ∀ i, i < j → tokHitAt tok l i = false) :
    searchTokWs tok l = some (captureAfter (l.drop (j + tok.length))) := by
  induction l generalizing j with
  | nil => simp [tokHitAt, wsHead] at hhit
  | cons c rest ih =>
    cases j with
    | zero =>
      rw [searchTokWs, if_pos]
      · simp
      · simp [hhit]
    | succ j' =>
      have h0 : tokHitAt tok (c :: rest) 0 = false := hmin 0 (Nat.succ_pos j')
      rw [searchTokWs, if_neg]
      · have hhit' : tokHitAt tok rest j' = true := by
          rw [← tokHitAt_cons_succ tok c rest j']; exact hhit
        have hmin' : ∀ i, i < j' → tokHitAt tok rest i = false := fun i hi => by
          rw [← tokHitAt_cons_succ tok c rest i]
          exact hmin (i + 1) (Nat.succ_lt_succ hi)
        rw [ih j' hhit' hmin']
        have harr : j' + 1 + tok.length = j' + tok.length + 1 :=
          Nat.add_right_comm j' 1 tok.length
        rw [harr, List.drop_succ_cons]
      · simp [h0]

/-- C8 counterexample: on the line `mycrypt foo` the type token is
`mycrypt`, not the literal `crypt`, so the claimed parser returns not-found
(as the spec-worded `specNameFromListing` does) — but the source regex is an
unanchored `search` and extracts `foo`. -/
theorem c8_counterexample_substring_token :
    luksNameSearch "mycrypt foo" = some "foo" ∧
    specNameFromListing "mycrypt foo" = none := by
  constructor <;> rfl

/-- C8 amended: the name extraction returns `none` exactly when no offset of
the text carries the substring `crypt` immediately followed by whitespace,
and otherwise returns the non-whitespace run following the whitespace after
the leftmost such occurrence — so a type token merely ending in `crypt`
(such as `mycrypt`) also triggers extraction, and not-found is `none`, never
an error. -/
theorem c8_regex_search_characterization (s : String) :
    ((∀ i, i < s.data.length → tokHitAt cryptTok s.data i = false) →
        luksNameSearch s = none) ∧
    (∀ j, tokHitAt cryptTok s.data j = true →
        (∀ i, i < j → tokHitAt cryptTok s.data i = false) →
        luksNameSearch s = some (String.mk (captureAfter (s.data.drop (j + 5))))) := by
  constructor
  · intro h
    unfold luksNameSearch
    rw [searchTokWs_eq_none]
    · rfl
    · intro i
      by_cases hi : i < s.data.length
      · exact h i hi
      · exact tokHitAt_of_le_false cryptTok s.data i (Nat.le_of_not_lt hi)
  · intro j hj hmin
    unfold luksNameSearch
    rw [searchTokWs_eq_some cryptTok s.data j hj hmin]
    rfl

/-- C8 witness: the characterization applied to two concrete listings — one
with no `crypt` occurrence at all, one where `crypt` occurs only as the tail
of `xcrypt` at offset 1. -/
theorem c8_regex_search_characterization_witness :
    luksNameSearch "disk  sda" = none ∧
    (tokHitAt cryptTok ("xcrypt nm1" : String).data 1 = true ∧
      luksNameSearch "xcrypt nm1" =
        some (String.mk (captureAfter (("xcrypt nm1" : String).data.drop (1 + 5))))) :=
  ⟨(c8_regex_search_characterization "disk  sda").1 (by decide),
   by decide,
   (c8_regex_search_characterization "xcrypt nm1").2 1 (by decide) (by decide)⟩

end LuksDevice
